import Mathlib

/-!
Verification of the masumi registry service synchronization and reconciliation
engine against its natural-language specification.

The development shallowly embeds the relevant TypeScript source:
* the Cardano ledger scanner (`updateLatestCardanoRegistryEntries`,
  `processMip001Entry`, `processMip002Entry`) from the cardano-registry service,
* the health verifier (`checkAndVerifyEndpoint`, `checkA2AAgentCard`,
  `checkAndVerifyRegistryEntry`, `checkVerifyAndUpdateRegistryEntries`) from
  `src/services/health-check/health-check.service.ts`,
* the reconciliation batcher (`updateHealthCheck`) selection, staggered-backoff
  filtering and rotation-marker logic.

Times are modelled as rational milliseconds (JavaScript `Date.getTime()`
values), statuses as an inductive enumeration, network responses as explicit
oracle values, and the JavaScript `Map` as an insertion-ordered association
list.
-/

namespace MasumiRegistry

/-- The Prisma `Status` enumeration of a registry entry. -/
inductive Status where
  | Online
  | Offline
  | Invalid
  | Deregistered
  deriving DecidableEq, Repr

/- ───────────────────────── Ledger scanner netting (C1) ─────────────────────

`updateLatestCardanoRegistryEntries` computes, per mint-purpose transaction,
a JavaScript `Map` `mintedOrBurnedAssetsOfPolicy` from asset unit to a net
quantity.  We embed the `Map` as an insertion-ordered association list. -/

/-- One `{ unit, quantity }` element of a UTXO's `amount` array.  The ledger
serves `quantity` as a decimal string; the source applies `parseInt`, so we
model it directly as an integer. -/
structure AssetAmount where
  unit : String
  quantity : Int
  deriving DecidableEq, Repr

/-- One input or output UTXO of a transaction: its `amount` array. -/
structure Utxo where
  amount : List AssetAmount
  deriving DecidableEq, Repr

/-- The full input/output UTXO set of one transaction (`blockfrost.txsUtxos`). -/
structure TxUtxos where
  inputs : List Utxo
  outputs : List Utxo
  deriving DecidableEq, Repr

/-- JavaScript `Map.set`: replace the value at the key, or append a new binding. -/
def mapSet (m : List (String × Int)) (k : String) (v : Int) : List (String × Int) :=
  if m.any (fun p => p.1 == k) then
    m.map (fun p => if p.1 == k then (k, v) else p)
  else
    m ++ [(k, v)]

/-- JavaScript `Map.get`: the value bound to the key, if any. -/
def mapGet (m : List (String × Int)) (k : String) : Option Int :=
  (m.find? (fun p => p.1 == k)).map (fun p => p.2)

/-- The check `unit.startsWith(policyId)`, written out on the underlying character
lists. -/
def strStartsWith (s pat : String) : Bool :=
  go pat.data s.data
where
  go : List Char → List Char → Bool
    | [], _ => true
    | _ :: _, [] => false
    | a :: as, b :: bs => a == b && go as bs

/-- The input-UTXO pass of the scanner: for every asset of the policy it
executes `map.set(unit, -quantity)` — an unconditional overwrite, exactly as
in the source. -/
def applyInputUtxo (policyId : String) (m : List (String × Int)) (u : Utxo) :
    List (String × Int) :=
  u.amount.foldl
    (fun m a =>
      if strStartsWith a.unit policyId then mapSet m a.unit (-a.quantity) else m)
    m

/-- The output-UTXO pass of the scanner: for every asset of the policy it adds
the quantity to the existing binding, or inserts it. -/
def applyOutputUtxo (policyId : String) (m : List (String × Int)) (u : Utxo) :
    List (String × Int) :=
  u.amount.foldl
    (fun m a =>
      if strStartsWith a.unit policyId then
        match mapGet m a.unit with
        | some q => mapSet m a.unit (q + a.quantity)
        | none => mapSet m a.unit a.quantity
      else m)
    m

/-- The map `mintedOrBurnedAssetsOfPolicy`, as computed by
`updateLatestCardanoRegistryEntries` for one transaction: the input pass over
`txsUtxos.inputs` followed by the output pass over `txsUtxos.outputs`. -/
def mintedOrBurnedAssetsOfPolicy (policyId : String) (tx : TxUtxos) :
    List (String × Int) :=
  tx.outputs.foldl (applyOutputUtxo policyId)
    (tx.inputs.foldl (applyInputUtxo policyId) [])

/-- Total quantity of one asset unit inside a single UTXO. -/
def utxoQty (unit : String) (u : Utxo) : Int :=
  (u.amount.filter (fun a => a.unit == unit)).foldl (fun s a => s + a.quantity) 0

/-- Modelled from the spec's formula: `net = Σ(output quantities) − Σ(input
quantities)`, summing the unit's quantities across all UTXOs on each side. -/
def specNet (tx : TxUtxos) (unit : String) : Int :=
  ((tx.outputs.map (utxoQty unit)).foldl (· + ·) 0) -
    ((tx.inputs.map (utxoQty unit)).foldl (· + ·) 0)

/-- A token-consolidation transaction: two input UTXOs each spending 1 of
asset `pA` of policy `p`, one output UTXO receiving both. -/
def c1Tx : TxUtxos :=
  { inputs := [⟨[⟨"pA", 1⟩]⟩, ⟨[⟨"pA", 1⟩]⟩]
    outputs := [⟨[⟨"pA", 2⟩]⟩] }

/- ───────────────────────── Registry entries ──────────────────────────────

The fields of a `RegistryEntry` row that the scanner, the health verifier and
the reconciliation batcher read or write.  `sourceOk` models whether the
joined `RegistrySource` relation is present with a non-null `policyId` (the
batch update throws per entry when it is not). -/

structure REntry where
  id : Nat
  status : Status
  uptimeCount : Nat
  uptimeCheckCount : Nat
  lastUptimeCheck : ℚ
  updatedAt : ℚ
  metadataVersion : Nat
  apiBaseUrl : String
  agentCardUrl : Option String
  assetIdentifier : String
  sourceOk : Bool
  deriving DecidableEq, Repr

/- ───────────────────────── Health verifier (C6, C8, C10) ─────────────────── -/

/-- The hostname/protocol/query components of a parsed `new URL(...)`;
`protocol` carries the trailing colon and `search` the leading `?`, as in the
WHATWG URL API. -/
structure UrlParts where
  hostname : String
  protocol : String
  search : String
  deriving DecidableEq, Repr

/-- The JSON body of a 2xx `/availability` response, as read by
`checkAndVerifyEndpoint`: an optional `agentIdentifier` field (absent or the
empty string both fail the truthiness test in the source, so `none` models
absence and `some ""` models the empty string) and whether `type` equals
`"masumi-agent"`. -/
structure V1Response where
  ok : Bool
  agentIdentifier : Option String
  typeIsMasumiAgent : Bool
  deriving DecidableEq, Repr

/-- A response to an agent-card fetch: reachability and whether the JSON body
parses against `agentCardSchema`. -/
structure CardResponse where
  ok : Bool
  cardValid : Bool
  deriving DecidableEq, Repr

/-- The result a checker hands back: a classified status plus, for the MIP-001
checker only, the identifier returned by the endpoint body. -/
structure ProbeResult where
  status : Status
  agentIdentifier : Option String
  deriving DecidableEq, Repr

/-- Model of `checkAndVerifyEndpoint` (MIP-001 checker).  The network is an oracle:
`net = none` models a thrown fetch/JSON error, `some resp` a response.  The
second component counts outbound requests, so that static rejection — which
returns before any fetch — is visibly request-free. -/
def checkAndVerifyEndpointModel (net : Option V1Response) (u : UrlParts) :
    ProbeResult × Nat :=
  if u.hostname == "localhost" || u.hostname == "127.0.0.1" || !(u.search == "") then
    (⟨Status.Invalid, none⟩, 0)
  else if !(u.protocol == "https:") && !(u.protocol == "http:") then
    (⟨Status.Invalid, none⟩, 0)
  else
    match net with
    | none => (⟨Status.Offline, none⟩, 1)
    | some resp =>
      if !resp.ok then (⟨Status.Offline, none⟩, 1)
      else
        match resp.agentIdentifier with
        | some ident =>
          if ident == "" then
            (⟨if resp.typeIsMasumiAgent then Status.Online else Status.Invalid,
              none⟩, 1)
          else (⟨Status.Online, some ident⟩, 1)
        | none =>
          (⟨if resp.typeIsMasumiAgent then Status.Online else Status.Invalid,
            none⟩, 1)

/-- Model of `checkA2AAgentCard` (MIP-002 checker).  Statically rejects loopback hosts
and non-http(s) schemes only — it has no query-string rule. -/
def checkA2AAgentCardModel (net : Option CardResponse) (u : UrlParts) :
    ProbeResult × Nat :=
  if u.hostname == "localhost" || u.hostname == "127.0.0.1" then
    (⟨Status.Invalid, none⟩, 0)
  else if !(u.protocol == "https:") && !(u.protocol == "http:") then
    (⟨Status.Invalid, none⟩, 0)
  else
    match net with
    | none => (⟨Status.Offline, none⟩, 1)
    | some resp =>
      if !resp.ok then (⟨Status.Offline, none⟩, 1)
      else (⟨if resp.cardValid then Status.Online else Status.Invalid, none⟩, 1)

/- ───────────────────────── Batch dedup and fan-out (C4, C6) ─────────────── -/

/-- The compound dedup key `` `${isA2A ? 'a2a' : 'mip001'}:${url}` ``.  The two
kind tags differ before the first colon, so the string key is injective in the
pair and we model it structurally. -/
structure CheckKey where
  isA2A : Bool
  url : String
  deriving DecidableEq, Repr

/-- Model of `getHealthCheckKey`: a metadata-version-2 entry with a (truthy, hence
non-empty) card URL probes the card URL with the A2A checker; every other
entry probes its base API URL with the MIP-001 checker. -/
def getHealthCheckKey (e : REntry) : CheckKey :=
  match e.agentCardUrl with
  | some u => if e.metadataVersion == 2 && !(u == "") then ⟨true, u⟩
              else ⟨false, e.apiBaseUrl⟩
  | none => ⟨false, e.apiBaseUrl⟩

/-- The `neededLookups` loop body: insert each entry's key unless already
present, preserving first-insertion order (a JavaScript `Map`). -/
def dedupKeys : List CheckKey → List CheckKey → List CheckKey
  | acc, [] => acc
  | acc, k :: ks =>
    if acc.any (fun k2 => k2 == k) then dedupKeys acc ks
    else dedupKeys (acc ++ [k]) ks

/-- The deduplicated probe targets of one batch run: exactly the keys the code
fans out one request for. -/
def neededLookups (entries : List REntry) : List CheckKey :=
  dedupKeys [] (entries.map getHealthCheckKey)

/-- The fulfilled `lookupMap`: both checkers catch every error internally, so
every dispatched lookup settles fulfilled and lands in the map. -/
def lookupMap (probe : CheckKey → ProbeResult) (entries : List REntry) :
    List (CheckKey × ProbeResult) :=
  (neededLookups entries).map (fun k => (k, probe k))

/-- Model of `checkAndVerifyRegistryEntry` (the individual fallback path): skip when the
entry was checked after `minHealthCheckDate`; otherwise dispatch on the same
key selection and, for MIP-001, apply the identity rule against the returned
identifier. -/
def checkAndVerifyRegistryEntryModel (probe : CheckKey → ProbeResult)
    (minDate : ℚ) (e : REntry) : Status :=
  if minDate < e.lastUptimeCheck then e.status
  else
    let k := getHealthCheckKey e
    let r := probe k
    if k.isA2A then r.status
    else
      match r.agentIdentifier with
      | some ident =>
        if ident == e.assetIdentifier then Status.Online else Status.Invalid
      | none => r.status

/-- The per-entry status derivation of the batch path (lines using
`lookupMap.get`): a returned identifier must match the entry's asset
identifier or the status is forced to `Invalid`. -/
def deriveEntryStatus (r : ProbeResult) (assetIdentifier : String) : Status :=
  match r.agentIdentifier with
  | some ident => if ident == assetIdentifier then r.status else Status.Invalid
  | none => r.status

/-- The status computed for one entry by the batch fan-out callback: `none`
models the thrown rejection when the entry's registry source or policy id is
null; otherwise the status comes from the deduplicated lookup, falling back to
an individual check when the key is absent from the map (dead in practice,
since the map covers every entry key). -/
def entryCheckResult (probe : CheckKey → ProbeResult) (minDate : ℚ)
    (entries : List REntry) (e : REntry) : Option Status :=
  if !e.sourceOk then none
  else
    let k := getHealthCheckKey e
    match (lookupMap probe entries).find? (fun p => p.1 == k) with
    | some p => some (deriveEntryStatus p.2 e.assetIdentifier)
    | none => some (checkAndVerifyRegistryEntryModel probe minDate e)

/-- The successful-entry database update: set the probed status, bump
`uptimeCount` by one exactly when the new status is `Online`, bump
`uptimeCheckCount` by one, and refresh `lastUptimeCheck` — together. -/
def applyCheckUpdate (now : ℚ) (st : Status) (e : REntry) : REntry :=
  { e with
    status := st
    uptimeCount := e.uptimeCount + (if st == Status.Online then 1 else 0)
    uptimeCheckCount := e.uptimeCheckCount + 1
    lastUptimeCheck := now }

/-- The `failedIds` bulk update: entries whose fan-out callback rejected are
set to `Invalid` with a fresh `lastUptimeCheck`; counters are untouched. -/
def markFailed (now : ℚ) (e : REntry) : REntry :=
  { e with status := Status.Invalid, lastUptimeCheck := now }

/-- Final state of one entry after a batch run.  `dbFail` is an oracle for the
per-entry `prisma.registryEntry.update` throwing inside its `try`: a failed
database update leaves the row untouched (previous status, stale
`lastUptimeCheck`). -/
def reconcileEntryFinal (probe : CheckKey → ProbeResult) (dbFail : Nat → Bool)
    (minDate now : ℚ) (entries : List REntry) (e : REntry) : REntry :=
  match entryCheckResult probe minDate entries e with
  | none => markFailed now e
  | some st => if dbFail e.id then e else applyCheckUpdate now st e

/-- One whole `checkVerifyAndUpdateRegistryEntries` run over its batch. -/
def reconcileBatch (probe : CheckKey → ProbeResult) (dbFail : Nat → Bool)
    (minDate now : ℚ) (entries : List REntry) : List REntry :=
  entries.map (reconcileEntryFinal probe dbFail minDate now entries)

/- ─────────────────── Batcher selection and backoff (C2, C3, C7) ──────────── -/

/-- The `findMany` where-clause for the Online/Offline batch: status in
`{Online, Offline}` and `lastUptimeCheck ≤ onlyEntriesAfter`. -/
def onlineOfflineSelect (cutoff : ℚ) (e : REntry) : Bool :=
  (e.status == Status.Online || e.status == Status.Offline) &&
    decide (e.lastUptimeCheck ≤ cutoff)

/-- The `findMany` where-clause for the Invalid batch: status `Invalid`,
`lastUptimeCheck ≤ onlyEntriesAfter` and `uptimeCheckCount ≤ 20`. -/
def invalidSelect (cutoff : ℚ) (e : REntry) : Bool :=
  e.status == Status.Invalid && decide (e.lastUptimeCheck ≤ cutoff) &&
    decide (e.uptimeCheckCount ≤ 20)

/-- The expression `Math.max(0.2, e.uptimeCheckCount - e.uptimeCount)` over rational
milliseconds (JavaScript numbers). -/
def retries (e : REntry) : ℚ :=
  if (0.2 : ℚ) < (e.uptimeCheckCount : ℚ) - (e.uptimeCount : ℚ) then
    (e.uptimeCheckCount : ℚ) - (e.uptimeCount : ℚ)
  else (0.2 : ℚ)

/-- The expression `Math.min(1000*60*10*retries, 1000*60*60*48)`. -/
def staggeredWaitTime (e : REntry) : ℚ :=
  if 1000 * 60 * 10 * retries e < 1000 * 60 * 60 * 48 then
    1000 * 60 * 10 * retries e
  else 1000 * 60 * 60 * 48

/-- The stagger filter predicate of `updateHealthCheck`: keep an Invalid
candidate exactly when `lastUptimeCheck + wait < cutoff` (strict, as in the
source). -/
def invalidStaggerPasses (cutoff : ℚ) (e : REntry) : Bool :=
  decide (e.lastUptimeCheck + staggeredWaitTime e < cutoff)

/-- The list `filteredOutInvalidStaggeredEntries` — despite its name, the Invalid
candidates that *pass* the stagger filter and remain probe-eligible. -/
def filteredOutInvalidStaggeredEntries (cutoff : ℚ) (l : List REntry) :
    List REntry :=
  l.filter (invalidStaggerPasses cutoff)

/-- The list `excludedEntries` — the candidates whose `id` occurs in
`filteredOutInvalidStaggeredEntries` (the source tests `find(...) != null`).
These are the entries whose `updatedAt` rotation marker is bumped. -/
def excludedEntries (cutoff : ℚ) (l : List REntry) : List REntry :=
  l.filter (fun e =>
    (filteredOutInvalidStaggeredEntries cutoff l).any (fun e2 => e2.id == e.id))

/-- The slice `slice(0, Math.min(10, length))` of the stagger-eligible candidates: the
Invalid entries merged into the probe batch. -/
def invalidBatch (cutoff : ℚ) (l : List REntry) : List REntry :=
  (filteredOutInvalidStaggeredEntries cutoff l).take
    (min 10 (filteredOutInvalidStaggeredEntries cutoff l).length)

/-- The batch `combinedEntries`: the Online/Offline selection concatenated with the
capped Invalid batch — the list handed to
`checkVerifyAndUpdateRegistryEntries`. -/
def combinedEntries (cutoff : ℚ) (onOff invalids : List REntry) : List REntry :=
  onOff ++ invalidBatch cutoff invalids

/- ───────────────────── Scanner entry mutations (C3, C5) ──────────────────── -/

/-- The `prisma.registryEntry.upsert` of both metadata handlers.  `shared` is
the record built from the freshly parsed on-chain metadata (including the
probe-seeded status is passed separately as `st`).  Creation seeds
`uptimeCheckCount = 1` and `uptimeCount ∈ {0,1}`; an update overwrites the
shared fields — status included — and increments the counters. -/
def mintUpsert (now : ℚ) (st : Status) (shared : REntry)
    (existing : Option REntry) : REntry :=
  match existing with
  | none =>
    { shared with
      status := st
      lastUptimeCheck := now
      uptimeCount := if st == Status.Online then 1 else 0
      uptimeCheckCount := 1 }
  | some e =>
    { shared with
      id := e.id
      status := st
      lastUptimeCheck := now
      uptimeCount := e.uptimeCount + (if st == Status.Online then 1 else 0)
      uptimeCheckCount := e.uptimeCheckCount + 1 }

/-- The burn path: inside a transaction, read the entry by asset identifier
and, when present, set its status to `Deregistered`; absent entries are left
absent. -/
def processBurn (existing : Option REntry) : Option REntry :=
  existing.map (fun e => { e with status := Status.Deregistered })

/-- Every mutation the code applies to an existing entry after creation. -/
inductive EntryOp where
  | mintUpdate (st : Status) (shared : REntry)
  | reconcileUpdate (st : Status)
  | reconcileMarkFailed
  | burn
  deriving Repr

/-- Apply one mutation at time `now`. -/
def applyEntryOp (now : ℚ) (op : EntryOp) (e : REntry) : REntry :=
  match op with
  | .mintUpdate st shared => mintUpsert now st shared (some e)
  | .reconcileUpdate st => applyCheckUpdate now st e
  | .reconcileMarkFailed => markFailed now e
  | .burn => { e with status := Status.Deregistered }

/-- Apply a timed sequence of mutations. -/
def applyEntryOps (ops : List (ℚ × EntryOp)) (e : REntry) : REntry :=
  ops.foldl (fun acc p => applyEntryOp p.1 p.2 acc) e

/-- The counter invariant of the data model. -/
def counterInv (e : REntry) : Prop :=
  e.uptimeCount ≤ e.uptimeCheckCount

/- ─────────────────────────── Scanner pagination (C9) ─────────────────────── -/

/-- The page-fetch loop of `updateLatestCardanoRegistryEntries`, abstracted to
the page sizes the redeemer endpoint answers (`cnt page` is `txs.length`
before cursor slicing).  The do-while requests the current page and continues
with the next page exactly while the answered page was non-empty; `fuel`
bounds the recursion. -/
def pagesRequested (cnt : Nat → Nat) (page : Nat) : Nat → List Nat
  | 0 => []
  | fuel + 1 =>
    page :: (if 0 < cnt page then pagesRequested cnt (page + 1) fuel else [])

/- ─────────────────────────── Concrete instances ──────────────────────────── -/

/-- A plain MIP-001 entry used as the base of the concrete scenarios. -/
def baseEntry : REntry :=
  { id := 0
    status := Status.Online
    uptimeCount := 0
    uptimeCheckCount := 1
    lastUptimeCheck := 0
    updatedAt := 0
    metadataVersion := 1
    apiBaseUrl := "https://a.test"
    agentCardUrl := none
    assetIdentifier := "pAsset1"
    sourceOk := true }

/-- Scenario D's entry: `Invalid`, `uptimeCheckCount = 5`, `uptimeCount = 1`,
last checked at epoch 0 ms. -/
def c2Ineligible : REntry :=
  { baseEntry with
    id := 1, status := Status.Invalid, uptimeCheckCount := 5, uptimeCount := 1,
    lastUptimeCheck := 0 }

/-- A sibling Invalid candidate whose 40-minute wait has long elapsed. -/
def c2Eligible : REntry :=
  { baseEntry with
    id := 2, status := Status.Invalid, uptimeCheckCount := 5, uptimeCount := 1,
    lastUptimeCheck := -10000000 }

/-- A deregistered entry. -/
def deregEx : REntry :=
  { baseEntry with
    id := 3, status := Status.Deregistered, uptimeCount := 2,
    uptimeCheckCount := 6 }

/-- Freshly parsed metadata shared-fields record for a re-mint of the same
asset identifier as `deregEx`. -/
def c3Shared : REntry :=
  { baseEntry with id := 3, uptimeCount := 0, uptimeCheckCount := 0 }

/-- An entry whose joined registry source is missing/has a null policy id, so
its fan-out callback throws. -/
def c4Bad : REntry :=
  { baseEntry with
    id := 10, sourceOk := false, status := Status.Online, uptimeCount := 2,
    uptimeCheckCount := 3 }

/-- A healthy sibling of `c4Bad` in the same batch. -/
def c4Good : REntry := { baseEntry with id := 11 }

/-- A probe oracle answering `Online` with no identifier for every target. -/
def constProbe : CheckKey → ProbeResult := fun _ => ⟨Status.Online, none⟩

/-- A database oracle under which every per-entry update succeeds. -/
def noDbFail : Nat → Bool := fun _ => false

/-- An `Invalid` entry past the 20-check retry cap. -/
def c7Capped : REntry :=
  { baseEntry with
    id := 30, status := Status.Invalid, uptimeCount := 0,
    uptimeCheckCount := 25 }

/-- An `Online` entry eligible for the Online/Offline batch. -/
def c7On : REntry := { baseEntry with id := 31 }

/-- An `Invalid` entry under the retry cap, long overdue. -/
def c7Inv : REntry :=
  { baseEntry with
    id := 32, status := Status.Invalid, uptimeCount := 0,
    uptimeCheckCount := 3, lastUptimeCheck := -10000000 }

/-- A second entry sharing `c7On`'s base API URL but registered for a
different asset. -/
def c6Twin : REntry := { baseEntry with id := 21, assetIdentifier := "pAsset2" }

/-- The redeemer page sizes of the C9 scenario: page 1 answers 50
transactions (fewer than the page size of 100), every other page is empty. -/
def c9Pages : Nat → Nat := fun p => if p = 1 then 50 else 0

end MasumiRegistry

namespace MasumiRegistry

/-- C1: the scanner nets each policy asset as `Σ(outputs) − Σ(inputs)` over
all UTXOs.  Refuted: the input pass overwrites instead of accumulating, so a
transaction with the same unit in two input UTXOs (quantities 1 and 1) and one
output UTXO (quantity 2) nets `+1` in the code — classified as a mint — while
the specified formula nets `0` (a no-op). -/
theorem c1_input_overwrite :
    mapGet (mintedOrBurnedAssetsOfPolicy "p" c1Tx) "pA" = some 1 ∧
    specNet c1Tx "pA" = 0 := by
  decide

/-- Membership in the dedup accumulator loop. -/
theorem mem_dedupKeys (ks : List CheckKey) :
    ∀ (acc : List CheckKey) (k : CheckKey),
      k ∈ dedupKeys acc ks ↔ k ∈ acc ∨ k ∈ ks := by
  induction ks with
  | nil => intro acc k; simp [dedupKeys]
  | cons a ks ih =>
    intro acc k
    by_cases h : acc.any (fun k2 => k2 == a) = true
    · have ha : a ∈ acc := by
        obtain ⟨x, hx, hxa⟩ := List.any_eq_true.mp h
        rwa [show x = a from eq_of_beq hxa] at hx
      rw [dedupKeys, if_pos h, ih]
      constructor
      · rintro (hk | hk)
        · exact Or.inl hk
        · exact Or.inr (List.mem_cons_of_mem _ hk)
      · rintro (hk | hk)
        · exact Or.inl hk
        · rcases List.mem_cons.mp hk with rfl | hk
          · exact Or.inl ha
          · exact Or.inr hk
    · rw [dedupKeys, if_neg h, ih]
      simp only [List.mem_append, List.mem_singleton, List.mem_cons]
      tauto

/-- The dedup accumulator loop preserves freedom from duplicates. -/
theorem nodup_dedupKeys (ks : List CheckKey) :
    ∀ acc : List CheckKey, acc.Nodup → (dedupKeys acc ks).Nodup := by
  induction ks with
  | nil => intro acc hacc; simpa [dedupKeys] using hacc
  | cons a ks ih =>
    intro acc hacc
    by_cases h : acc.any (fun k2 => k2 == a) = true
    · rw [dedupKeys, if_pos h]; exact ih acc hacc
    · have ha : a ∉ acc := by
        intro hmem
        exact h (List.any_eq_true.mpr ⟨a, hmem, beq_self_eq_true a⟩)
      rw [dedupKeys, if_neg h]
      refine ih _ (hacc.append (List.nodup_singleton a) ?_)
      intro x hx hxa
      rw [List.mem_singleton.mp hxa] at hx
      exact ha hx

/-- A key occurs among the deduplicated probe targets exactly when some entry
of the batch resolves to it. -/
theorem mem_neededLookups (entries : List REntry) (k : CheckKey) :
    k ∈ neededLookups entries ↔ ∃ e ∈ entries, getHealthCheckKey e = k := by
  rw [neededLookups, mem_dedupKeys]
  simp [eq_comm]

/-- The deduplicated probe-target list has no duplicate keys. -/
theorem nodup_neededLookups (entries : List REntry) :
    (neededLookups entries).Nodup :=
  nodup_dedupKeys _ _ List.nodup_nil

/-- Looking a present key up in the fulfilled lookup map yields exactly the
probe result for that key. -/
theorem find?_map_probe (probe : CheckKey → ProbeResult) (k : CheckKey) :
    ∀ l : List CheckKey, k ∈ l →
      (l.map (fun k2 => (k2, probe k2))).find? (fun p => p.1 == k) =
        some (k, probe k) := by
  intro l
  induction l with
  | nil => intro h; cases h
  | cons a l ih =>
    intro h
    by_cases hak : a = k
    · subst hak
      simp [List.find?]
    · have hk : k ∈ l := by
        rcases List.mem_cons.mp h with rfl | hk
        · exact absurd rfl hak
        · exact hk
      have hbeq : (a == k) = false := beq_eq_false_iff_ne.mpr hak
      simp [List.find?, hbeq, ih hk]

/-- The batch fan-out resolves every entry with a usable registry source
through the deduplicated lookup: its status is derived from the single probe
of its own key, independently of its siblings. -/
theorem entryCheckResult_eq (probe : CheckKey → ProbeResult) (minDate : ℚ)
    (entries : List REntry) (e : REntry) (he : e ∈ entries)
    (hs : e.sourceOk = true) :
    entryCheckResult probe minDate entries e =
      some (deriveEntryStatus (probe (getHealthCheckKey e)) e.assetIdentifier) := by
  have hk : getHealthCheckKey e ∈ neededLookups entries :=
    (mem_neededLookups entries _).mpr ⟨e, he, rfl⟩
  rw [entryCheckResult, lookupMap, hs]
  simp only [Bool.not_true, Bool.false_eq_true, if_false]
  rw [find?_map_probe probe _ _ hk]

/-- Membership in the capped Invalid probe batch implies membership in the
Invalid selection. -/
theorem mem_of_mem_invalidBatch (cutoff : ℚ) (l : List REntry) (e : REntry)
    (h : e ∈ invalidBatch cutoff l) : e ∈ l :=
  List.mem_of_mem_filter (List.mem_of_mem_take h)

/-- A mutation of an existing entry preserves the counter invariant. -/
theorem counterInv_applyEntryOp (now : ℚ) (op : EntryOp) (e : REntry)
    (h : counterInv e) : counterInv (applyEntryOp now op e) := by
  cases op with
  | mintUpdate st shared =>
    simp only [applyEntryOp, mintUpsert, counterInv] at h ⊢
    split <;> omega
  | reconcileUpdate st =>
    simp only [applyEntryOp, applyCheckUpdate, counterInv] at h ⊢
    split <;> omega
  | reconcileMarkFailed =>
    simpa only [applyEntryOp, markFailed, counterInv] using h
  | burn =>
    simpa only [applyEntryOp, counterInv] using h

/-- A sequence of mutations preserves the counter invariant. -/
theorem counterInv_applyEntryOps (ops : List (ℚ × EntryOp)) :
    ∀ e : REntry, counterInv e → counterInv (applyEntryOps ops e) := by
  induction ops with
  | nil => intro e h; simpa [applyEntryOps] using h
  | cons p ops ih =>
    intro e h
    exact ih _ (counterInv_applyEntryOp p.1 p.2 e h)

/-- C2: an Invalid entry with `uptimeCheckCount = 5`, `uptimeCount = 1` gets
`retries = 4` and `wait = 40 min` (confirmed), and an entry whose
`lastUptimeCheck + wait` exceeds the cutoff is excluded from probing
(confirmed) — but contrary to the claim its rotation marker is *not* updated:
`excludedEntries` (the set whose `updatedAt` is bumped) contains exactly the
probe-eligible entries, not the ineligible one, because the source's filter
tests `find(...) != null` instead of `== null`; moreover at
`lastUptimeCheck + wait = cutoff` the entry is not probed either, though the
claim calls `≤ cutoff` eligible. -/
theorem c2_rotation_marker_mismatch :
    retries c2Ineligible = 4 ∧
    staggeredWaitTime c2Ineligible = 2400000 ∧
    invalidBatch 2000000 [c2Ineligible, c2Eligible] = [c2Eligible] ∧
    excludedEntries 2000000 [c2Ineligible, c2Eligible] = [c2Eligible] ∧
    invalidBatch 2400000 [c2Ineligible] = [] := by
  have hri : retries c2Ineligible = 4 := by
    norm_num [retries, c2Ineligible, baseEntry]
  have hre : retries c2Eligible = 4 := by
    norm_num [retries, c2Eligible, baseEntry]
  have hwi : staggeredWaitTime c2Ineligible = 2400000 := by
    norm_num [staggeredWaitTime, hri]
  have hwe : staggeredWaitTime c2Eligible = 2400000 := by
    norm_num [staggeredWaitTime, hre]
  have hpi : invalidStaggerPasses 2000000 c2Ineligible = false := by
    simp only [invalidStaggerPasses]
    rw [hwi, show c2Ineligible.lastUptimeCheck = (0 : ℚ) from rfl]
    norm_num
  have hpe : invalidStaggerPasses 2000000 c2Eligible = true := by
    simp only [invalidStaggerPasses]
    rw [hwe, show c2Eligible.lastUptimeCheck = (-10000000 : ℚ) from rfl]
    norm_num
  have hpb : invalidStaggerPasses 2400000 c2Ineligible = false := by
    simp only [invalidStaggerPasses]
    rw [hwi, show c2Ineligible.lastUptimeCheck = (0 : ℚ) from rfl]
    norm_num
  have hfil : filteredOutInvalidStaggeredEntries 2000000 [c2Ineligible, c2Eligible]
      = [c2Eligible] := by
    simp [filteredOutInvalidStaggeredEntries, List.filter, hpi, hpe]
  refine ⟨hri, hwi, ?_, ?_, ?_⟩
  · simp [invalidBatch, hfil]
  · simp only [excludedEntries]
    rw [hfil]
    simp [List.filter, c2Ineligible, c2Eligible, baseEntry]
  · simp [invalidBatch, filteredOutInvalidStaggeredEntries, List.filter, hpb]

/-- C3 counterexample: a later mint of the same asset identifier runs the
metadata handler's upsert against the existing `Deregistered` entry, whose
update branch overwrites `status` with the new probe-derived status — here
`Offline` — so `Deregistered` is not terminal across re-mints. -/
theorem c3_remint_changes_deregistered :
    deregEx.status = Status.Deregistered ∧
    (mintUpsert 100 Status.Offline c3Shared (some deregEx)).status =
      Status.Offline :=
  ⟨rfl, rfl⟩

/-- C3 (amended): a `Deregistered` entry matches neither reconciliation
selection clause, so no reconciliation run touches it; re-processing a burn
leaves it `Deregistered`; and it never appears in the probe batch of a run —
but a later mint of the same asset identifier does change its status (see the
counterexample). -/
theorem c3_deregistered_terminal_amended (cutoff : ℚ) (e : REntry)
    (h : e.status = Status.Deregistered) :
    onlineOfflineSelect cutoff e = false ∧
    invalidSelect cutoff e = false ∧
    (processBurn (some e)).map REntry.status = some Status.Deregistered ∧
    ∀ onOff invalids : List REntry,
      (∀ x ∈ onOff, onlineOfflineSelect cutoff x = true) →
      (∀ x ∈ invalids, invalidSelect cutoff x = true) →
      e ∉ combinedEntries cutoff onOff invalids := by
  have h1 : onlineOfflineSelect cutoff e = false := by
    simp [onlineOfflineSelect, h]
  have h2 : invalidSelect cutoff e = false := by
    simp [invalidSelect, h]
  refine ⟨h1, h2, by simp [processBurn], ?_⟩
  intro onOff invalids hOn hInv hmem
  simp only [combinedEntries] at hmem
  rcases List.mem_append.mp hmem with hm | hm
  · have ht := hOn e hm
    rw [h1] at ht
    exact Bool.false_ne_true ht
  · have ht := hInv e (mem_of_mem_invalidBatch cutoff invalids e hm)
    rw [h2] at ht
    exact Bool.false_ne_true ht

/-- C3 witness: the amended statement at the concrete deregistered entry. -/
theorem c3_deregistered_terminal_witness :
    onlineOfflineSelect 0 deregEx = false ∧
    invalidSelect 0 deregEx = false ∧
    (processBurn (some deregEx)).map REntry.status = some Status.Deregistered ∧
    deregEx ∉ combinedEntries 0 [] [] := by
  have h := c3_deregistered_terminal_amended 0 deregEx rfl
  exact ⟨h.1, h.2.1, h.2.2.1, h.2.2.2 [] [] (by simp) (by simp)⟩

/-- C4 counterexample: in a batch holding an entry whose registry source join
is unusable (its fan-out callback throws) next to a healthy sibling, the
sibling is still processed — but the failed entry does *not* keep its previous
status and stale `lastUptimeCheck`: the `failedIds` bulk update sets it to
`Invalid` with a fresh `lastUptimeCheck` (counters untouched). -/
theorem c4_failed_entry_not_left_stale :
    (reconcileBatch constProbe noDbFail 50 100 [c4Bad, c4Good]).map
        (fun e => (e.id, e.status, e.lastUptimeCheck, e.uptimeCount,
          e.uptimeCheckCount)) =
      [(10, Status.Invalid, 100, 2, 3), (11, Status.Online, 100, 1, 2)] := by
  rfl

/-- C4 (amended): the batch maps every entry through its own per-entry
reconciliation, so one entry's failure never aborts a sibling; an entry whose
check computation fails is marked `Invalid` with a fresh `lastUptimeCheck`,
while an entry whose database update fails is left completely unchanged
(previous status, stale `lastUptimeCheck`) and is hence re-selected by a later
run. -/
theorem c4_fanout_isolation_amended (probe : CheckKey → ProbeResult)
    (dbFail : Nat → Bool) (minDate now : ℚ) (entries : List REntry)
    (e : REntry) (he : e ∈ entries) :
    reconcileBatch probe dbFail minDate now entries =
      entries.map (reconcileEntryFinal probe dbFail minDate now entries) ∧
    reconcileEntryFinal probe dbFail minDate now entries e =
      (if e.sourceOk then
        (if dbFail e.id then e
          else applyCheckUpdate now
            (deriveEntryStatus (probe (getHealthCheckKey e))
              e.assetIdentifier) e)
        else markFailed now e) := by
  refine ⟨rfl, ?_⟩
  by_cases hs : e.sourceOk = true
  · simp only [reconcileEntryFinal,
      entryCheckResult_eq probe minDate entries e he hs, if_pos hs]
  · have hs' : e.sourceOk = false := by simpa using hs
    simp [reconcileEntryFinal, entryCheckResult, hs']

/-- C4 witness: the amended statement at a concrete singleton batch. -/
theorem c4_fanout_isolation_witness :
    reconcileBatch constProbe noDbFail 50 100 [c4Good] =
      [c4Good].map (reconcileEntryFinal constProbe noDbFail 50 100 [c4Good]) ∧
    reconcileEntryFinal constProbe noDbFail 50 100 [c4Good] c4Good =
      (if c4Good.sourceOk then
        (if noDbFail c4Good.id then c4Good
          else applyCheckUpdate 100
            (deriveEntryStatus (constProbe (getHealthCheckKey c4Good))
              c4Good.assetIdentifier) c4Good)
        else markFailed 100 c4Good) :=
  c4_fanout_isolation_amended constProbe noDbFail 50 100 [c4Good] c4Good
    (by simp)

/-- C5: creation by either metadata handler seeds `uptimeCheckCount = 1` and
`uptimeCount ∈ {0, 1}` (1 exactly when the seeded status is `Online`); every
scanner re-processing update and every successful reconciliation update
increments `uptimeCheckCount` by one and `uptimeCount` by one exactly when the
resulting status is `Online`; and along any sequence of the code's entry
mutations starting from a creation, `uptimeCount ≤ uptimeCheckCount` holds. -/
theorem c5_counter_invariant (now t : ℚ) (st : Status) (shared e : REntry)
    (ops : List (ℚ × EntryOp)) :
    (mintUpsert now st shared none).uptimeCheckCount = 1 ∧
    ((mintUpsert now st shared none).uptimeCount =
      if st = Status.Online then 1 else 0) ∧
    (applyCheckUpdate t st e).uptimeCheckCount = e.uptimeCheckCount + 1 ∧
    ((applyCheckUpdate t st e).uptimeCount =
      e.uptimeCount + if st = Status.Online then 1 else 0) ∧
    (mintUpsert t st shared (some e)).uptimeCheckCount =
      e.uptimeCheckCount + 1 ∧
    ((mintUpsert t st shared (some e)).uptimeCount =
      e.uptimeCount + if st = Status.Online then 1 else 0) ∧
    counterInv (applyEntryOps ops (mintUpsert now st shared none)) := by
  have hcreate : counterInv (mintUpsert now st shared none) := by
    simp only [counterInv, mintUpsert]
    split <;> omega
  refine ⟨rfl, ?_, rfl, ?_, rfl, ?_,
    counterInv_applyEntryOps ops _ hcreate⟩ <;> cases st <;> rfl

/-- C6: within one batch, every group of entries sharing a compound
`(checker-kind, url)` key triggers exactly one probe of that key, and each
such entry's computed status is derived from that single probe's result; when
the probe carries no identifier (the generic-marker and MIP-002 cases) the
entries receive the identical status. -/
theorem c6_probe_dedup (probe : CheckKey → ProbeResult) (minDate : ℚ)
    (entries : List REntry) (e1 e2 : REntry) (h1 : e1 ∈ entries)
    (h2 : e2 ∈ entries) (hk : getHealthCheckKey e1 = getHealthCheckKey e2)
    (hs1 : e1.sourceOk = true) (hs2 : e2.sourceOk = true) :
    (neededLookups entries).count (getHealthCheckKey e1) = 1 ∧
    entryCheckResult probe minDate entries e1 =
      some (deriveEntryStatus (probe (getHealthCheckKey e1))
        e1.assetIdentifier) ∧
    entryCheckResult probe minDate entries e2 =
      some (deriveEntryStatus (probe (getHealthCheckKey e1))
        e2.assetIdentifier) ∧
    ((probe (getHealthCheckKey e1)).agentIdentifier = none →
      entryCheckResult probe minDate entries e1 =
        entryCheckResult probe minDate entries e2) := by
  have hm : getHealthCheckKey e1 ∈ neededLookups entries :=
    (mem_neededLookups entries _).mpr ⟨e1, h1, rfl⟩
  have hc : (neededLookups entries).count (getHealthCheckKey e1) = 1 :=
    List.count_eq_one_of_mem (nodup_neededLookups entries) hm
  have he1 := entryCheckResult_eq probe minDate entries e1 h1 hs1
  have he2 := entryCheckResult_eq probe minDate entries e2 h2 hs2
  rw [← hk] at he2
  refine ⟨hc, he1, he2, fun hnone => ?_⟩
  rw [he1, he2]
  simp [deriveEntryStatus, hnone]

/-- C6 witness: two entries for different assets sharing one base API URL. -/
theorem c6_probe_dedup_witness :
    (neededLookups [baseEntry, c6Twin]).count (getHealthCheckKey baseEntry)
      = 1 ∧
    entryCheckResult constProbe 50 [baseEntry, c6Twin] baseEntry =
      some (deriveEntryStatus (constProbe (getHealthCheckKey baseEntry))
        baseEntry.assetIdentifier) ∧
    entryCheckResult constProbe 50 [baseEntry, c6Twin] c6Twin =
      some (deriveEntryStatus (constProbe (getHealthCheckKey baseEntry))
        c6Twin.assetIdentifier) ∧
    ((constProbe (getHealthCheckKey baseEntry)).agentIdentifier = none →
      entryCheckResult constProbe 50 [baseEntry, c6Twin] baseEntry =
        entryCheckResult constProbe 50 [baseEntry, c6Twin] c6Twin) :=
  c6_probe_dedup constProbe 50 [baseEntry, c6Twin] baseEntry c6Twin
    (by simp) (by simp) rfl rfl rfl

/-- C7: an Invalid entry past the 20-check cap satisfies neither selection
clause of a reconciliation run, so it is never part of the combined probe
batch — no probe is issued for it. -/
theorem c7_invalid_retry_cap (cutoff : ℚ) (onOff invalids : List REntry)
    (hOn : ∀ x ∈ onOff, onlineOfflineSelect cutoff x = true)
    (hInv : ∀ x ∈ invalids, invalidSelect cutoff x = true)
    (e : REntry) (hst : e.status = Status.Invalid)
    (hcap : 20 < e.uptimeCheckCount) :
    e ∉ combinedEntries cutoff onOff invalids := by
  intro hmem
  simp only [combinedEntries] at hmem
  rcases List.mem_append.mp hmem with hm | hm
  · have ht := hOn e hm
    simp [onlineOfflineSelect, hst] at ht
  · have ht := hInv e (mem_of_mem_invalidBatch cutoff invalids e hm)
    simp [invalidSelect, hst] at ht
    omega

/-- C7 witness: the capped entry is absent from a concrete run's batch. -/
theorem c7_invalid_retry_cap_witness :
    c7Capped ∉ combinedEntries 0 [c7On] [c7Inv] := by
  refine c7_invalid_retry_cap 0 [c7On] [c7Inv] ?_ ?_ c7Capped rfl (by decide)
  · intro x hx
    simp only [List.mem_singleton] at hx
    subst hx
    norm_num [onlineOfflineSelect, c7On, baseEntry]
  · intro x hx
    simp only [List.mem_singleton] at hx
    subst hx
    norm_num [invalidSelect, c7Inv, baseEntry]

/-- C8: when a reachable `/availability` body carries a non-empty identifier,
the MIP-001 checker returns `Online` together with that identifier, and the
per-entry derivation yields the probe status exactly for the entry whose asset
identifier matches, forcing every other entry to `Invalid` — so a single
endpoint cannot come out `Online` for two entries with different asset
identifiers. -/
theorem c8_identity_rule (resp : V1Response) (u : UrlParts)
    (ident a1 a2 : String) (hok : resp.ok = true)
    (hid : resp.agentIdentifier = some ident) (hne : ¬ ident = "")
    (hh1 : ¬ u.hostname = "localhost") (hh2 : ¬ u.hostname = "127.0.0.1")
    (hq : u.search = "") (hp : u.protocol = "https:" ∨ u.protocol = "http:")
    (hdiff : ¬ a1 = a2) :
    (checkAndVerifyEndpointModel (some resp) u).1 =
      ⟨Status.Online, some ident⟩ ∧
    (∀ a : String,
      deriveEntryStatus ⟨Status.Online, some ident⟩ a =
        if ident = a then Status.Online else Status.Invalid) ∧
    ¬ (deriveEntryStatus ⟨Status.Online, some ident⟩ a1 = Status.Online ∧
        deriveEntryStatus ⟨Status.Online, some ident⟩ a2 = Status.Online) := by
  have hb1 : (u.hostname == "localhost") = false := beq_eq_false_iff_ne.mpr hh1
  have hb2 : (u.hostname == "127.0.0.1") = false := beq_eq_false_iff_ne.mpr hh2
  have hbn : (ident == "") = false := beq_eq_false_iff_ne.mpr hne
  have hone : ∀ a : String,
      deriveEntryStatus ⟨Status.Online, some ident⟩ a =
        if ident = a then Status.Online else Status.Invalid := by
    intro a
    by_cases ha : ident = a <;> simp [deriveEntryStatus, ha]
  refine ⟨?_, hone, ?_⟩
  · rcases hp with hp | hp <;>
      simp [checkAndVerifyEndpointModel, hb1, hb2, hbn, hq, hp, hok, hid]
  · rintro ⟨hA, hB⟩
    rw [hone a1] at hA
    rw [hone a2] at hB
    by_cases ha1 : ident = a1
    · by_cases ha2 : ident = a2
      · exact hdiff (ha1 ▸ ha2)
      · rw [if_neg ha2] at hB
        exact Status.noConfusion hB
    · rw [if_neg ha1] at hA
      exact Status.noConfusion hA

/-- C8 witness: one endpoint answering identifier `pAsset1`, faced with the
entries for `pAsset1` and `pAsset2`. -/
theorem c8_identity_rule_witness :
    (checkAndVerifyEndpointModel (some ⟨true, some "pAsset1", false⟩)
        ⟨"example.com", "https:", ""⟩).1 =
      ⟨Status.Online, some "pAsset1"⟩ ∧
    (∀ a : String,
      deriveEntryStatus ⟨Status.Online, some "pAsset1"⟩ a =
        if "pAsset1" = a then Status.Online else Status.Invalid) ∧
    ¬ (deriveEntryStatus ⟨Status.Online, some "pAsset1"⟩ "pAsset1" =
          Status.Online ∧
        deriveEntryStatus ⟨Status.Online, some "pAsset1"⟩ "pAsset2" =
          Status.Online) :=
  c8_identity_rule ⟨true, some "pAsset1", false⟩ ⟨"example.com", "https:", ""⟩
    "pAsset1" "pAsset1" "pAsset2" rfl rfl (by decide) (by decide) (by decide)
    rfl (Or.inl rfl) (by decide)

/-- C9 counterexample: with page 1 answering 50 transactions — fewer than the
page size of 100 — and page 2 empty, the scan loop still requests page 2: a
short page does not end the source's scan. -/
theorem c9_short_page_not_final :
    pagesRequested c9Pages 1 10 = [1, 2] ∧ c9Pages 1 = 50 ∧ c9Pages 1 < 100 := by
  decide

/-- C9 (amended): the do-while requests pages until — and including — the
first page answering zero transactions: a page answering zero ends the scan
immediately, while after any non-empty page (even one far below the page size)
the next page is still requested. -/
theorem c9_scan_ends_on_empty_page (cnt : Nat → Nat) (page fuel : Nat)
    (hf : 2 ≤ fuel) :
    (cnt page = 0 → pagesRequested cnt page fuel = [page]) ∧
    (0 < cnt page → page + 1 ∈ pagesRequested cnt page fuel) := by
  obtain ⟨f, rfl⟩ : ∃ f, fuel = f + 2 := ⟨fuel - 2, by omega⟩
  constructor
  · intro h0
    simp [pagesRequested, h0]
  · intro hpos
    simp [pagesRequested, hpos]

/-- C9 witness: the amended statement at the concrete page oracle. -/
theorem c9_scan_ends_on_empty_page_witness :
    0 < c9Pages 1 ∧ 2 ∈ pagesRequested c9Pages 1 10 :=
  ⟨by decide, (c9_scan_ends_on_empty_page c9Pages 1 10 (by decide)).2 (by decide)⟩

/-- C10: a URL with a non-empty query string is rejected by the MIP-001
availability checker as `Invalid` before any network request, while the
MIP-002 agent-card checker applies no query-string rule: for a non-loopback
http(s) URL it issues its request regardless of the query string. -/
theorem c10_query_string_static_reject (netV1 : Option V1Response)
    (netV2 : Option CardResponse) (u : UrlParts) (hq : ¬ u.search = "") :
    checkAndVerifyEndpointModel netV1 u = (⟨Status.Invalid, none⟩, 0) ∧
    (¬ u.hostname = "localhost" → ¬ u.hostname = "127.0.0.1" →
      (u.protocol = "https:" ∨ u.protocol = "http:") →
      (checkA2AAgentCardModel netV2 u).2 = 1) := by
  have hqb : (u.search == "") = false := beq_eq_false_iff_ne.mpr hq
  constructor
  · simp [checkAndVerifyEndpointModel, hqb]
  · intro h1 h2 hp
    have hb1 : (u.hostname == "localhost") = false := beq_eq_false_iff_ne.mpr h1
    have hb2 : (u.hostname == "127.0.0.1") = false :=
      beq_eq_false_iff_ne.mpr h2
    rcases netV2 with _ | resp
    · rcases hp with hp | hp <;>
        simp [checkA2AAgentCardModel, hb1, hb2, hp]
    · rcases hp with hp | hp <;>
        cases hr : resp.ok <;>
          simp [checkA2AAgentCardModel, hb1, hb2, hp, hr]

/-- C10 witness: a query-carrying URL, each checker fed a network error. -/
theorem c10_query_string_static_reject_witness :
    checkAndVerifyEndpointModel none ⟨"example.com", "https:", "?x=1"⟩ =
      (⟨Status.Invalid, none⟩, 0) ∧
    (checkA2AAgentCardModel (none : Option CardResponse)
      ⟨"example.com", "https:", "?x=1"⟩).2 = 1 := by
  have h := c10_query_string_static_reject none none
    ⟨"example.com", "https:", "?x=1"⟩ (by decide)
  exact ⟨h.1, h.2 (by decide) (by decide) (Or.inl rfl)⟩

end MasumiRegistry
